import Mathlib

/-!
Shallow embedding of `view_database.py`, a read-only reporting script over the
ATM SQLite store.  The script opens one connection, prints five report
sections (technician credentials, accounts, ATM machine state, transactions,
technician activities) and closes the connection at the end of the script.

Modelling conventions:
* SQLite rows are Lean structures, one per table, with the column types the
  script's format strings assume.  Currency columns (REAL in the store) are
  modelled exactly, in integer cents, so that Python's `:,.2f` / `:.2f`
  renderings become pure functions on `Int`.
* A nullable column read through Python truthiness (`last_login`) is a `Val`,
  the sqlite value type restricted to the shapes the column can hold; columns
  tested via `is not None` are `Option Int`.
* `print` calls become lines (`List String`); the whole run is a pure
  function from the database contents to the list of printed lines.
* Query failure (a raised sqlite exception) is modelled by an oracle
  `QId → Bool` saying which of the five `cursor.execute` calls raises; the
  script has no try/finally, so a raise ends the run right there.
-/

/-- One decimal digit `d < 10` as a character. -/
def digitChar (d : Nat) : Char := Char.ofNat (48 + d)

/-- Fuel-driven base-10 digit list, least significant digit first.
Executable counterpart of `Nat.digits 10`. -/
def digitsFuel : Nat → Nat → List Nat
  | 0, _ => []
  | fuel + 1, n => if n = 0 then [] else n % 10 :: digitsFuel fuel (n / 10)

/-- Base-10 digits of `n`, least significant first (empty for 0). -/
def decDigitsRev (n : Nat) : List Nat := digitsFuel n n

/-- Decimal digit characters of `n`, least significant first; `0` prints as one digit. -/
def natCharsRev (n : Nat) : List Char :=
  if n = 0 then ['0'] else (decDigitsRev n).map digitChar

/-- Insert a thousands separator after every third character, walking from the
least significant end; mirrors the `,` option of Python's format spec. -/
def groupRev : List Char → List Char
  | a :: b :: c :: d :: rest => a :: b :: c :: ',' :: groupRev (d :: rest)
  | l => l

/-- Characters of the Python rendering `f-string` of a currency value held as
integer cents: sign, integer part (grouped with commas when `comma` is true,
matching `:,.2f` versus `:.2f`), then a point and exactly two digits. -/
def moneyChars (comma : Bool) (cents : Int) : List Char :=
  let a := cents.natAbs
  let ipRev := natCharsRev (a / 100)
  let ip := if comma then (groupRev ipRev).reverse else ipRev.reverse
  (if cents < 0 then ['-'] else []) ++ ip ++ '.' :: [digitChar (a % 100 / 10), digitChar (a % 100 % 10)]

/-- Python `f-string` rendering `x:,.2f` of a currency value in cents. -/
def moneyStr (cents : Int) : String := String.mk (moneyChars true cents)

/-- Python `f-string` rendering `x:.2f` of a currency value in cents (no grouping). -/
def plainMoney (cents : Int) : String := String.mk (moneyChars false cents)

/-- Python `str` of an integer. -/
def intStr (n : Int) : String :=
  (if n < 0 then "-" else "") ++ String.mk (natCharsRev n.natAbs).reverse

/-- Right alignment to width `w`: pad with spaces on the left, never truncate.
Python's numeric default (`:3d`, `:10,.2f`) and explicit `:>10`. -/
def padAlignRight (s : String) (w : Nat) : String :=
  String.mk (List.replicate (w - s.length) ' ') ++ s

/-- Python string field `s:15s`: left aligned, padded with spaces on the right
to width `w`; content longer than `w` is emitted whole, never truncated. -/
def fmtS (s : String) (w : Nat) : String :=
  s ++ String.mk (List.replicate (w - s.length) ' ')

/-- Sqlite value as seen by the script through the Python DB-API for the
nullable `last_login` column: NULL, an integer, or a text timestamp. -/
inductive Val where
  | null
  | int (n : Int)
  | text (s : String)
deriving DecidableEq

/-- Python truthiness of a fetched sqlite value: `None`, `0` and `""` are
falsy, everything else truthy. This is the test `if row[6]` performs. -/
def pyTruthy : Val → Bool
  | Val.null => false
  | Val.int n => !(n = 0)
  | Val.text s => !(s = "")

/-- Python `str` of a fetched sqlite value, as interpolated by an f-string. -/
def pyStr : Val → String
  | Val.null => "None"
  | Val.int n => intStr n
  | Val.text s => s

/-- Row of `technician_credentials` in the projection the script selects. -/
structure CredRow where
  id : Int
  username : String
  password : String
  full_name : String
  role : String
  created_date : String
  last_login : Val

/-- Row of `accounts` (`SELECT *`: number, holder name, balance, pin). -/
structure AccountRow where
  account_number : String
  name : String
  balance : Int
  pin : String

/-- Row of `atm_state` (`SELECT *`: id, cash, paper_sheets, ink_units). -/
structure AtmRow where
  id : Int
  cash : Int
  paper : Int
  ink : Int

/-- Row of `transactions` in the projection the script selects. -/
structure TxRow where
  id : Int
  account_number : String
  account_holder : String
  transaction_type : String
  amount : Int
  previous_balance : Int
  new_balance : Int
  timestamp : String

/-- Row of `technician_activities` in the projection the script selects.
The three nullable numeric columns are read through `is not None`. -/
structure ActRow where
  id : Int
  activity_type : String
  amount : Option Int
  description : String
  previous_value : Option Int
  new_value : Option Int
  timestamp : String

/-- Contents of the five tables of the store, in storage order. -/
structure DB where
  technician_credentials : List CredRow
  accounts : List AccountRow
  atm_state : List AtmRow
  transactions : List TxRow
  technician_activities : List ActRow

/-- Python line 13: `last_login = row[6] if row[6] else "Never"`. -/
def lastLoginStr (r : CredRow) : String :=
  if pyTruthy r.last_login then pyStr r.last_login else "Never"

/-- Python line 14: the credential row print. -/
def credLine (r : CredRow) : String :=
  "ID: " ++ (intStr r.id ++ " | Username: " ++ fmtS r.username 15 ++ " | Password: " ++
    fmtS r.password 10 ++ " | Name: " ++ fmtS r.full_name 25 ++ " | Role: " ++
    fmtS r.role 10 ++ " | Created: " ++ r.created_date ++ " | Last Login: " ++ lastLoginStr r)

/-- Python line 23: the account row print. -/
def accountLine (r : AccountRow) : String :=
  "Account #: " ++ (fmtS r.account_number 6 ++ " | Name: " ++ fmtS r.name 15 ++
    " | Balance: $" ++ padAlignRight (moneyStr r.balance) 10 ++ " | PIN: " ++ r.pin)

/-- Python line 30: the machine-state row print (`row[0]`, the id, is skipped). -/
def atmLine (r : AtmRow) : String :=
  "ATM Cash: $" ++ (padAlignRight (moneyStr r.cash) 10 ++ " | Paper Sheets: " ++
    padAlignRight (intStr r.paper) 3 ++ " | Ink Units: " ++ padAlignRight (intStr r.ink) 3)

/-- Python line 39: the transaction row print. -/
def txLine (r : TxRow) : String :=
  "ID: " ++ (padAlignRight (intStr r.id) 3 ++ " | Account: " ++ fmtS r.account_number 6 ++
    " | Holder: " ++ fmtS r.account_holder 15 ++ " | Type: " ++ fmtS r.transaction_type 15 ++
    " | Amount: $" ++ padAlignRight (moneyStr r.amount) 8 ++ " | Prev: $" ++
    padAlignRight (moneyStr r.previous_balance) 8 ++ " | New: $" ++
    padAlignRight (moneyStr r.new_balance) 8 ++ " | Time: " ++ r.timestamp)

/-- Python line 50: `amount_str`, a dollar sign plus `:.2f`, or the N/A token. -/
def actAmountStr (r : ActRow) : String :=
  match r.amount with
  | some c => "$" ++ plainMoney c
  | none => "N/A"

/-- Python line 51: `prev_str` (no dollar sign in the source). -/
def actPrevStr (r : ActRow) : String :=
  match r.previous_value with
  | some c => plainMoney c
  | none => "N/A"

/-- Python line 52: `new_str`. -/
def actNewStr (r : ActRow) : String :=
  match r.new_value with
  | some c => plainMoney c
  | none => "N/A"

/-- Python line 53: the activity row print. -/
def actLine (r : ActRow) : String :=
  "ID: " ++ (padAlignRight (intStr r.id) 3 ++ " | Type: " ++ fmtS r.activity_type 15 ++
    " | Amount: " ++ padAlignRight (actAmountStr r) 10 ++ " | Description: " ++
    fmtS r.description 25 ++ " | Prev: " ++ padAlignRight (actPrevStr r) 10 ++
    " | New: " ++ padAlignRight (actNewStr r) 10 ++ " | Time: " ++ r.timestamp)

/-- The 80-character separator rule `'='*80`. -/
def eq80 : String := String.mk (List.replicate 80 '=')

/-- The three header prints of a section: `print('\n' + '='*80)` emits a blank
line and a rule, then the title line, then a second rule. -/
def header (title : String) : List String := ["", eq80, title, eq80]

/-- Relation `ORDER BY id DESC` orders transactions by: left row's id is the
larger one. -/
def txGe (a b : TxRow) : Prop := b.id ≤ a.id

instance : DecidableRel txGe := fun a b => inferInstanceAs (Decidable (b.id ≤ a.id))

instance : IsTotal TxRow txGe := ⟨fun a b => le_total b.id a.id⟩

instance : IsTrans TxRow txGe := ⟨fun _ _ _ h1 h2 => le_trans h2 h1⟩

/-- Same ordering relation for technician activities. -/
def actGe (a b : ActRow) : Prop := b.id ≤ a.id

instance : DecidableRel actGe := fun a b => inferInstanceAs (Decidable (b.id ≤ a.id))

instance : IsTotal ActRow actGe := ⟨fun a b => le_total b.id a.id⟩

instance : IsTrans ActRow actGe := ⟨fun _ _ _ h1 h2 => le_trans h2 h1⟩

/-- Result of `SELECT ... FROM transactions ORDER BY id DESC LIMIT 20`. -/
def txQuery (db : DB) : List TxRow :=
  (List.insertionSort txGe db.transactions).take 20

/-- Result of `SELECT ... FROM technician_activities ORDER BY id DESC LIMIT 20`. -/
def actQuery (db : DB) : List ActRow :=
  (List.insertionSort actGe db.technician_activities).take 20

/-- Body of the credentials section: row lines, or the placeholder when the
fetched list is empty (`if credentials: ... else: print(...)`). -/
def credBody (db : DB) : List String :=
  match db.technician_credentials with
  | [] => ["No technician credentials found."]
  | rows => rows.map credLine

/-- Body of the accounts section: a bare `for` loop, no empty-set placeholder. -/
def accountsBody (db : DB) : List String := db.accounts.map accountLine

/-- Body of the machine-state section: a bare `for` loop, no placeholder. -/
def atmBody (db : DB) : List String := db.atm_state.map atmLine

/-- Body of the transactions section, with placeholder on an empty fetch. -/
def txBody (db : DB) : List String :=
  match txQuery db with
  | [] => ["No transactions found."]
  | rows => rows.map txLine

/-- Body of the activities section, with placeholder on an empty fetch. -/
def actBody (db : DB) : List String :=
  match actQuery db with
  | [] => ["No technician activities found."]
  | rows => rows.map actLine

/-- Credentials section: header then body. -/
def credSection (db : DB) : List String :=
  header "TECHNICIAN CREDENTIALS" ++ credBody db

/-- Accounts section. -/
def accountsSection (db : DB) : List String :=
  header "ACCOUNTS TABLE - All Customer Account Information" ++ accountsBody db

/-- Machine-state section. -/
def atmSection (db : DB) : List String :=
  header "ATM STATE - Machine Resources" ++ atmBody db

/-- Transactions section. -/
def txSection (db : DB) : List String :=
  header "TRANSACTIONS LOG - All Transactions (Last 20)" ++ txBody db

/-- Activities section. -/
def actSection (db : DB) : List String :=
  header "TECHNICIAN ACTIVITIES LOG - All Technician Actions (Last 20)" ++ actBody db

/-- Every line the script prints on a failure-free run, in order. -/
def viewOutput (db : DB) : List String :=
  credSection db ++ accountsSection db ++ atmSection db ++ txSection db ++ actSection db

/-- Identifier of each of the five `cursor.execute` calls, in program order. -/
inductive QId where
  | creds
  | accounts
  | atm
  | tx
  | act

/-- Run of the script under a failure oracle: `fails q = true` means the
`cursor.execute` call `q` raises.  Each section header is printed before its
query runs; the script has no exception handler and no try/finally, so a
raise terminates the run at that point and the final `conn.close()` on line
57 is reached only when all five queries succeed.  Returns the printed lines
and whether `conn.close()` executed. -/
def runView (db : DB) (fails : QId → Bool) : List String × Bool :=
  if fails QId.creds then (header "TECHNICIAN CREDENTIALS", false)
  else if fails QId.accounts then
    (credSection db ++ header "ACCOUNTS TABLE - All Customer Account Information", false)
  else if fails QId.atm then
    (credSection db ++ accountsSection db ++ header "ATM STATE - Machine Resources", false)
  else if fails QId.tx then
    (credSection db ++ accountsSection db ++ atmSection db ++
      header "TRANSACTIONS LOG - All Transactions (Last 20)", false)
  else if fails QId.act then
    (credSection db ++ accountsSection db ++ atmSection db ++ txSection db ++
      header "TECHNICIAN ACTIVITIES LOG - All Technician Actions (Last 20)", false)
  else (viewOutput db, true)

/-- Each SELECT as a state transformer on the store, returning the store it
leaves behind together with the fetched rows (a SELECT reads and writes
nothing, which is what the returned store records). -/
def qCredentials (db : DB) : DB × List CredRow := (db, db.technician_credentials)

/-- SELECT over `accounts`. -/
def qAccounts (db : DB) : DB × List AccountRow := (db, db.accounts)

/-- SELECT over `atm_state`. -/
def qAtmState (db : DB) : DB × List AtmRow := (db, db.atm_state)

/-- SELECT over `transactions` with ORDER BY and LIMIT. -/
def qTransactions (db : DB) : DB × List TxRow :=
  (db, (List.insertionSort txGe db.transactions).take 20)

/-- SELECT over `technician_activities` with ORDER BY and LIMIT. -/
def qActivities (db : DB) : DB × List ActRow :=
  (db, (List.insertionSort actGe db.technician_activities).take 20)

/-- Lines of the credentials body given the fetched rows. -/
def credsLines (rows : List CredRow) : List String :=
  match rows with
  | [] => ["No technician credentials found."]
  | rows => rows.map credLine

/-- Lines of the transactions body given the fetched rows. -/
def txLines (rows : List TxRow) : List String :=
  match rows with
  | [] => ["No transactions found."]
  | rows => rows.map txLine

/-- Lines of the activities body given the fetched rows. -/
def actLines (rows : List ActRow) : List String :=
  match rows with
  | [] => ["No technician activities found."]
  | rows => rows.map actLine

/-- Failure-free run of the whole script with the store threaded through
every query in program order: the final store (what the database holds after
the run) together with every printed line. -/
def runStateful (db : DB) : DB × List String :=
  let p1 := qCredentials db
  let p2 := qAccounts p1.1
  let p3 := qAtmState p2.1
  let p4 := qTransactions p3.1
  let p5 := qActivities p4.1
  (p5.1,
    header "TECHNICIAN CREDENTIALS" ++ credsLines p1.2 ++
    header "ACCOUNTS TABLE - All Customer Account Information" ++ p2.2.map accountLine ++
    header "ATM STATE - Machine Resources" ++ p3.2.map atmLine ++
    header "TRANSACTIONS LOG - All Transactions (Last 20)" ++ txLines p4.2 ++
    header "TECHNICIAN ACTIVITIES LOG - All Technician Actions (Last 20)" ++ actLines p5.2)

/-- The store with all five tables empty. -/
def dbEmpty : DB := ⟨[], [], [], [], []⟩

/-- A character list renders "with exactly two decimal digits": it ends in a
point followed by exactly two digit characters, and that point is the only
point in the list. -/
def twoDecimalsChars (l : List Char) : Prop :=
  ∃ p d1 d2, l = p ++ ['.', d1, d2] ∧ d1.isDigit = true ∧ d2.isDigit = true ∧ '.' ∉ p

/-- Failure oracle with exactly the transactions query raising. -/
def failTxOracle : QId → Bool
  | QId.tx => true
  | _ => false

/-- Credential row whose lastLogin is NULL. -/
def credRowNull : CredRow :=
  ⟨1, "tech1", "pw123", "Tech One", "admin", "2024-01-01 09:00:00", Val.null⟩

/-- Credential row whose lastLogin is present but the empty string. -/
def credRowEmptyText : CredRow :=
  ⟨3, "tech2", "pw456", "Tech Two", "technician", "2024-01-03 09:00:00", Val.text ""⟩

/-- Activity row with no monetary delta: all three nullable columns NULL. -/
def actRowNA : ActRow :=
  ⟨2, "config", none, "mode change", none, none, "2024-01-02 10:00:00"⟩

/-- Activity row whose amount is 1234.50, above the thousands threshold. -/
def actRowBig : ActRow :=
  ⟨9, "refill", some 123450, "cash refill", some 100000, some 223450, "2024-01-04 10:00:00"⟩

/-- Two transaction rows with distinct identities, inserted out of order. -/
def txRowA : TxRow :=
  ⟨3, "100001", "Alice", "deposit", 50000, 200000, 250000, "2024-01-05 11:00:00"⟩

/-- Second transaction row. -/
def txRowB : TxRow :=
  ⟨7, "100002", "Bob", "withdrawal", 2500, 10000, 7500, "2024-01-06 11:30:00"⟩

/-- Second activity row, distinct identity from actRowNA. -/
def actRowB : ActRow :=
  ⟨5, "restock", some 1000, "paper restock", none, none, "2024-01-07 12:00:00"⟩

/-- Concrete store exercising the transaction and activity queries. -/
def dbWitness : DB :=
  ⟨[credRowNull], [], [], [txRowA, txRowB], [actRowNA, actRowB]⟩


/-! ## Helper lemmas about the formatting primitives -/

theorem digitsFuel_eq (fuel : Nat) : ∀ n : Nat, n ≤ fuel → digitsFuel fuel n = Nat.digits 10 n := by
  induction fuel with
  | zero =>
      intro n hn
      have : n = 0 := Nat.le_zero.mp hn
      subst this
      simp [digitsFuel]
  | succ fuel ih =>
      intro n hn
      by_cases h0 : n = 0
      · subst h0; simp [digitsFuel]
      · have hpos : 0 < n := Nat.pos_of_ne_zero h0
        have hdiv : n / 10 ≤ fuel := by
          have := Nat.div_lt_self hpos (by norm_num : 1 < 10)
          omega
        rw [digitsFuel, if_neg h0, ih (n / 10) hdiv, Nat.digits_def' (by norm_num : 1 < 10) hpos]

theorem decDigitsRev_eq (n : Nat) : decDigitsRev n = Nat.digits 10 n :=
  digitsFuel_eq n n le_rfl

theorem digitChar_isDigit {d : Nat} (h : d < 10) : (digitChar d).isDigit = true := by
  interval_cases d <;> decide

theorem mem_natCharsRev_isDigit {n : Nat} {c : Char} (h : c ∈ natCharsRev n) :
    c.isDigit = true := by
  unfold natCharsRev at h
  by_cases h0 : n = 0
  · subst h0; simp at h; subst h; decide
  · rw [if_neg h0, decDigitsRev_eq] at h
    obtain ⟨d, hd, rfl⟩ := List.mem_map.mp h
    exact digitChar_isDigit (Nat.digits_lt_base (by norm_num) hd)

theorem length_natCharsRev_four_iff (n : Nat) : 4 ≤ (natCharsRev n).length ↔ 1000 ≤ n := by
  unfold natCharsRev
  by_cases h0 : n = 0
  · subst h0; simp
  · rw [if_neg h0, List.length_map, decDigitsRev_eq,
      Nat.digits_len 10 n (by norm_num) h0]
    have hl : (1000 ≤ n ↔ 3 ≤ Nat.log 10 n) := by
      rw [← Nat.pow_le_iff_le_log (by norm_num : 1 < 10) h0]
    omega

theorem mem_groupRev (x : Char) : ∀ l : List Char, x ∈ groupRev l ↔ x ∈ l ∨ (x = ',' ∧ 4 ≤ l.length) := by
  intro l
  induction l using groupRev.induct with
  | case1 a b c d rest ih =>
      simp only [groupRev, List.mem_cons, ih, List.length_cons]
      have h4 : 4 ≤ rest.length + 1 + 1 + 1 + 1 := by omega
      tauto
  | case2 l h =>
      rw [groupRev]
      · constructor
        · intro hx; exact Or.inl hx
        · rintro (hx | ⟨rfl, hl⟩)
          · exact hx
          · exfalso
            match l, hl with
            | a :: b :: c :: d :: rest, _ => exact h a b c d rest rfl
      · exact h

theorem comma_ne_digitChar {d : Nat} (h : d < 10) : ',' ≠ digitChar d := by
  interval_cases d <;> decide

theorem pt_ne_digitChar {d : Nat} (h : d < 10) : '.' ≠ digitChar d := by
  interval_cases d <;> decide

theorem moneyChars_intpart_mem (comma : Bool) (cents : Int) {x : Char}
    (hx : x ∈ (if comma then (groupRev (natCharsRev (cents.natAbs / 100))).reverse
        else (natCharsRev (cents.natAbs / 100)).reverse)) :
    x.isDigit = true ∨ x = ',' := by
  by_cases hc : comma = true
  · rw [if_pos hc, List.mem_reverse, mem_groupRev] at hx
    rcases hx with hx | ⟨rfl, _⟩
    · exact Or.inl (mem_natCharsRev_isDigit hx)
    · exact Or.inr rfl
  · rw [if_neg hc, List.mem_reverse] at hx
    exact Or.inl (mem_natCharsRev_isDigit hx)

theorem moneyChars_twoDecimals (comma : Bool) (cents : Int) :
    twoDecimalsChars (moneyChars comma cents) := by
  refine ⟨(if cents < 0 then ['-'] else []) ++
    (if comma then (groupRev (natCharsRev (cents.natAbs / 100))).reverse
      else (natCharsRev (cents.natAbs / 100)).reverse),
    digitChar (cents.natAbs % 100 / 10), digitChar (cents.natAbs % 100 % 10), ?_, ?_, ?_, ?_⟩
  · simp only [moneyChars, List.append_assoc]
  · exact digitChar_isDigit (by omega)
  · exact digitChar_isDigit (by omega)
  · intro hmem
    rcases List.mem_append.mp hmem with hs | hip
    · by_cases hn : cents < 0
      · rw [if_pos hn] at hs; exact absurd hs (by decide)
      · rw [if_neg hn] at hs; exact absurd hs (by decide)
    · rcases moneyChars_intpart_mem comma cents hip with hd | hc
      · exact absurd hd (by decide)
      · exact absurd hc (by decide)

theorem comma_mem_moneyChars_true (cents : Int) :
    ',' ∈ moneyChars true cents ↔ 100000 ≤ cents.natAbs := by
  unfold moneyChars
  simp only [List.mem_append, List.mem_cons, List.mem_reverse, reduceIte,
    List.not_mem_nil, or_false]
  constructor
  · rintro ((hs | hip) | h | h | h)
    · by_cases hn : cents < 0
      · rw [if_pos hn] at hs; exact absurd hs (by decide)
      · rw [if_neg hn] at hs; exact absurd hs (by decide)
    · rw [mem_groupRev] at hip
      rcases hip with hip | ⟨_, hl⟩
      · exact absurd (mem_natCharsRev_isDigit hip) (by decide)
      · have h1000 : 1000 ≤ cents.natAbs / 100 := (length_natCharsRev_four_iff _).mp hl
        have := (Nat.le_div_iff_mul_le (by norm_num : 0 < 100)).mp h1000
        omega
    · exact absurd h (by decide)
    · exact absurd h (comma_ne_digitChar (by omega))
    · exact absurd h (comma_ne_digitChar (by omega))
  · intro h
    have h1000 : 1000 ≤ cents.natAbs / 100 :=
      (Nat.le_div_iff_mul_le (by norm_num : 0 < 100)).mpr (by omega)
    refine Or.inl (Or.inr ?_)
    rw [mem_groupRev]
    exact Or.inr ⟨rfl, (length_natCharsRev_four_iff _).mpr h1000⟩

theorem comma_not_mem_moneyChars_false (cents : Int) :
    ',' ∉ moneyChars false cents := by
  intro hmem
  unfold moneyChars at hmem
  simp only [] at hmem
  rw [if_neg (by decide : ¬ (false = true))] at hmem
  simp only [List.mem_append, List.mem_cons, List.mem_reverse,
    List.not_mem_nil, or_false] at hmem
  rcases hmem with (hs | hip) | h | h | h
  · by_cases hn : cents < 0
    · rw [if_pos hn] at hs; exact absurd hs (by decide)
    · rw [if_neg hn] at hs; exact absurd hs (by decide)
  · exact absurd (mem_natCharsRev_isDigit hip) (by decide)
  · exact absurd h (by decide)
  · exact absurd h (comma_ne_digitChar (by omega))
  · exact absurd h (comma_ne_digitChar (by omega))

/-! ## String prefix helpers for distinguishing row lines from header lines -/

theorem take_data_of_append (a rest : String) :
    ((a ++ rest).data).take a.data.length = a.data := by
  rw [String.data_append]
  exact List.take_left a.data rest.data

theorem credLine_take (r : CredRow) :
    (credLine r).data.take ("ID: ".data.length) = "ID: ".data :=
  take_data_of_append "ID: " _

theorem txLine_take (r : TxRow) :
    (txLine r).data.take ("ID: ".data.length) = "ID: ".data :=
  take_data_of_append "ID: " _

theorem actLine_take (r : ActRow) :
    (actLine r).data.take ("ID: ".data.length) = "ID: ".data :=
  take_data_of_append "ID: " _

theorem accountLine_take (r : AccountRow) :
    (accountLine r).data.take ("Account #: ".data.length) = "Account #: ".data :=
  take_data_of_append "Account #: " _

theorem atmLine_take (r : AtmRow) :
    (atmLine r).data.take ("ATM Cash: $".data.length) = "ATM Cash: $".data :=
  take_data_of_append "ATM Cash: $" _

theorem count_credBody (db : DB) (t : String)
    (h1 : t ≠ "No technician credentials found.")
    (h2 : t.data.take ("ID: ".data.length) ≠ "ID: ".data) :
    (credBody db).count t = 0 := by
  rw [List.count_eq_zero]
  intro hmem
  unfold credBody at hmem
  cases hdb : db.technician_credentials with
  | nil => rw [hdb] at hmem; simp at hmem; exact h1 hmem
  | cons a l =>
      rw [hdb] at hmem
      simp only [List.mem_map] at hmem
      obtain ⟨r, _, hr⟩ := hmem
      exact h2 (hr ▸ credLine_take r)

theorem count_accountsBody (db : DB) (t : String)
    (h2 : t.data.take ("Account #: ".data.length) ≠ "Account #: ".data) :
    (accountsBody db).count t = 0 := by
  rw [List.count_eq_zero]
  intro hmem
  unfold accountsBody at hmem
  simp only [List.mem_map] at hmem
  obtain ⟨r, _, hr⟩ := hmem
  exact h2 (hr ▸ accountLine_take r)

theorem count_atmBody (db : DB) (t : String)
    (h2 : t.data.take ("ATM Cash: $".data.length) ≠ "ATM Cash: $".data) :
    (atmBody db).count t = 0 := by
  rw [List.count_eq_zero]
  intro hmem
  unfold atmBody at hmem
  simp only [List.mem_map] at hmem
  obtain ⟨r, _, hr⟩ := hmem
  exact h2 (hr ▸ atmLine_take r)

theorem count_txBody (db : DB) (t : String)
    (h1 : t ≠ "No transactions found.")
    (h2 : t.data.take ("ID: ".data.length) ≠ "ID: ".data) :
    (txBody db).count t = 0 := by
  rw [List.count_eq_zero]
  intro hmem
  unfold txBody at hmem
  cases hdb : txQuery db with
  | nil => rw [hdb] at hmem; simp at hmem; exact h1 hmem
  | cons a l =>
      rw [hdb] at hmem
      simp only [List.mem_map] at hmem
      obtain ⟨r, _, hr⟩ := hmem
      exact h2 (hr ▸ txLine_take r)

theorem count_actBody (db : DB) (t : String)
    (h1 : t ≠ "No technician activities found.")
    (h2 : t.data.take ("ID: ".data.length) ≠ "ID: ".data) :
    (actBody db).count t = 0 := by
  rw [List.count_eq_zero]
  intro hmem
  unfold actBody at hmem
  cases hdb : actQuery db with
  | nil => rw [hdb] at hmem; simp at hmem; exact h1 hmem
  | cons a l =>
      rw [hdb] at hmem
      simp only [List.mem_map] at hmem
      obtain ⟨r, _, hr⟩ := hmem
      exact h2 (hr ▸ actLine_take r)

theorem count_viewOutput (db : DB) (t : String) :
    (viewOutput db).count t =
      (["", eq80, "TECHNICIAN CREDENTIALS", eq80] : List String).count t +
      (credBody db).count t +
      (["", eq80, "ACCOUNTS TABLE - All Customer Account Information", eq80] : List String).count t +
      (accountsBody db).count t +
      (["", eq80, "ATM STATE - Machine Resources", eq80] : List String).count t +
      (atmBody db).count t +
      (["", eq80, "TRANSACTIONS LOG - All Transactions (Last 20)", eq80] : List String).count t +
      (txBody db).count t +
      (["", eq80, "TECHNICIAN ACTIVITIES LOG - All Technician Actions (Last 20)", eq80] : List String).count t +
      (actBody db).count t := by
  simp only [viewOutput, credSection, accountsSection, atmSection, txSection, actSection,
    header, List.count_append]
  omega

theorem runStateful_eq (db : DB) : runStateful db = (db, viewOutput db) := by
  have h1 : credBody db = credsLines db.technician_credentials := rfl
  have h2 : txBody db = txLines ((List.insertionSort txGe db.transactions).take 20) := rfl
  have h3 : actBody db = actLines ((List.insertionSort actGe db.technician_activities).take 20) := rfl
  unfold runStateful qCredentials qAccounts qAtmState qTransactions qActivities
  unfold viewOutput credSection accountsSection atmSection txSection actSection
  rw [h1, h2, h3]
  simp [accountsBody, atmBody, List.append_assoc]

/-! ## Sorting and limit helpers -/

theorem sortTake_spec {α : Type} (key : α → Int) (ge : α → α → Prop) [DecidableRel ge]
    [IsTotal α ge] [IsTrans α ge] (hge : ∀ a b, ge a b → key b ≤ key a)
    (l : List α) (hnd : (l.map key).Nodup) (n : Nat) :
    ((List.insertionSort ge l).take n).length ≤ n ∧
    ((List.insertionSort ge l).take n).length ≤ l.length ∧
    (((List.insertionSort ge l).take n).map key).Pairwise (· > ·) := by
  have hperm : List.Perm (List.insertionSort ge l) l := List.perm_insertionSort ge l
  have hlen : (List.insertionSort ge l).length = l.length := hperm.length_eq
  refine ⟨?_, ?_, ?_⟩
  · rw [List.length_take]; exact min_le_left _ _
  · rw [List.length_take, ← hlen]; exact min_le_right _ _
  · have hs : List.Sorted ge (List.insertionSort ge l) := List.sorted_insertionSort ge l
    have hnd2 : ((List.insertionSort ge l).map key).Nodup :=
      ((hperm.map key).nodup_iff).mpr hnd
    have hp1 : ((List.insertionSort ge l).map key).Pairwise (fun x y => y ≤ x) := by
      rw [List.pairwise_map]
      exact hs.imp (fun h => hge _ _ h)
    have hp3 : ((List.insertionSort ge l).map key).Pairwise (· > ·) :=
      (hp1.and hnd2).imp (fun h => lt_of_le_of_ne h.1 (Ne.symm h.2))
    rw [List.map_take]
    exact hp3.sublist (List.take_sublist n _)

/-! ## Claim theorems -/

/-- C1 counterexample: with an empty store, the accounts section (and likewise
the machine-state section) consists of its header only — no placeholder line
is printed for an empty result set, contrary to the uniform-placeholder claim. -/
theorem accountsSection_empty_no_placeholder :
    accountsSection dbEmpty =
      ["", eq80, "ACCOUNTS TABLE - All Customer Account Information", eq80] ∧
    atmSection dbEmpty = ["", eq80, "ATM STATE - Machine Resources", eq80] := by
  constructor <;> rfl

/-- C1 amended: on an empty result set the credentials, transactions and
activities sections print their placeholder line, while the accounts and
machine-state sections print an empty body (no placeholder). -/
theorem empty_section_bodies (db : DB) :
    (db.technician_credentials = [] → credBody db = ["No technician credentials found."]) ∧
    (db.transactions = [] → txBody db = ["No transactions found."]) ∧
    (db.technician_activities = [] → actBody db = ["No technician activities found."]) ∧
    (db.accounts = [] → accountsBody db = []) ∧
    (db.atm_state = [] → atmBody db = []) := by
  refine ⟨?_, ?_, ?_, ?_, ?_⟩
  · intro h; unfold credBody; rw [h]
  · intro h; unfold txBody txQuery; rw [h]; rfl
  · intro h; unfold actBody actQuery; rw [h]; rfl
  · intro h; unfold accountsBody; rw [h]; rfl
  · intro h; unfold atmBody; rw [h]; rfl

/-- C1 witness: the amended statement evaluated on the all-empty store. -/
theorem empty_section_bodies_witness :
    credBody dbEmpty = ["No technician credentials found."] ∧
    txBody dbEmpty = ["No transactions found."] ∧
    actBody dbEmpty = ["No technician activities found."] ∧
    accountsBody dbEmpty = [] ∧ atmBody dbEmpty = [] :=
  ⟨(empty_section_bodies dbEmpty).1 rfl, (empty_section_bodies dbEmpty).2.1 rfl,
    (empty_section_bodies dbEmpty).2.2.1 rfl, (empty_section_bodies dbEmpty).2.2.2.1 rfl,
    (empty_section_bodies dbEmpty).2.2.2.2 rfl⟩

/-- C2 counterexample: the activities section renders an amount of 1234.50
without a thousands separator — the field reads "$1234.50", not "$1,234.50". -/
theorem activity_amount_no_thousands_sep :
    actAmountStr actRowBig = "$1234.50" ∧ ',' ∉ (actAmountStr actRowBig).data := by
  constructor <;> decide

/-- C2 amended: the grouped rendering (used for the accounts balance, the ATM
cash and the three transaction amounts) shows exactly two decimal digits and
contains a thousands separator exactly when the absolute value is at least
1000 (100000 cents); the ungrouped rendering (used for the three activity
fields) shows exactly two decimal digits and never contains a separator. -/
theorem currency_format_spec (cents : Int) :
    twoDecimalsChars (moneyChars true cents) ∧
    ((',' ∈ moneyChars true cents) ↔ 100000 ≤ cents.natAbs) ∧
    twoDecimalsChars (moneyChars false cents) ∧
    ',' ∉ moneyChars false cents ∧
    moneyStr cents = String.mk (moneyChars true cents) ∧
    plainMoney cents = String.mk (moneyChars false cents) :=
  ⟨moneyChars_twoDecimals true cents, comma_mem_moneyChars_true cents,
    moneyChars_twoDecimals false cents, comma_not_mem_moneyChars_false cents, rfl, rfl⟩

/-- C3: the transaction and activity queries return at most 20 rows, never
more than the table holds, and (identities being unique) the returned rows
are strictly decreasing in their identity column. -/
theorem recent_sections_limit_sorted (db : DB)
    (htx : (db.transactions.map TxRow.id).Nodup)
    (hact : (db.technician_activities.map ActRow.id).Nodup) :
    ((txQuery db).length ≤ 20 ∧ (txQuery db).length ≤ db.transactions.length ∧
      ((txQuery db).map TxRow.id).Pairwise (· > ·)) ∧
    ((actQuery db).length ≤ 20 ∧ (actQuery db).length ≤ db.technician_activities.length ∧
      ((actQuery db).map ActRow.id).Pairwise (· > ·)) := by
  constructor
  · exact sortTake_spec TxRow.id txGe (fun _ _ h => h) db.transactions htx 20
  · exact sortTake_spec ActRow.id actGe (fun _ _ h => h) db.technician_activities hact 20

/-- C3 witness: a concrete store with two out-of-order transactions and two
activities, all identities distinct. -/
theorem recent_sections_limit_sorted_witness :
    (dbWitness.transactions.map TxRow.id).Nodup ∧
    (dbWitness.technician_activities.map ActRow.id).Nodup ∧
    ((txQuery dbWitness).map TxRow.id).Pairwise (· > ·) ∧
    ((actQuery dbWitness).map ActRow.id).Pairwise (· > ·) :=
  ⟨by decide, by decide,
    (recent_sections_limit_sorted dbWitness (by decide) (by decide)).1.2.2,
    (recent_sections_limit_sorted dbWitness (by decide) (by decide)).2.2.2⟩

/-- C4: a NULL lastLogin renders the literal token Never, and a NULL amount,
previousValue or newValue in an activity row renders the literal token N/A,
right-aligned in its 10-character column. -/
theorem null_render_tokens :
    (∀ r : CredRow, r.last_login = Val.null → lastLoginStr r = "Never") ∧
    (∀ a : ActRow,
      (a.amount = none → padAlignRight (actAmountStr a) 10 = "       N/A") ∧
      (a.previous_value = none → padAlignRight (actPrevStr a) 10 = "       N/A") ∧
      (a.new_value = none → padAlignRight (actNewStr a) 10 = "       N/A")) := by
  constructor
  · intro r h
    unfold lastLoginStr
    rw [h]
    rfl
  · intro a
    refine ⟨?_, ?_, ?_⟩
    · intro h
      have ha : actAmountStr a = "N/A" := by unfold actAmountStr; rw [h]
      rw [ha]; decide
    · intro h
      have ha : actPrevStr a = "N/A" := by unfold actPrevStr; rw [h]
      rw [ha]; decide
    · intro h
      have ha : actNewStr a = "N/A" := by unfold actNewStr; rw [h]
      rw [ha]; decide

/-- C4 witness: concrete rows with the NULL fields. -/
theorem null_render_tokens_witness :
    lastLoginStr credRowNull = "Never" ∧
    padAlignRight (actAmountStr actRowNA) 10 = "       N/A" ∧
    padAlignRight (actPrevStr actRowNA) 10 = "       N/A" ∧
    padAlignRight (actNewStr actRowNA) 10 = "       N/A" :=
  ⟨null_render_tokens.1 credRowNull rfl, (null_render_tokens.2 actRowNA).1 rfl,
    (null_render_tokens.2 actRowNA).2.1 rfl, (null_render_tokens.2 actRowNA).2.2 rfl⟩

/-- C5 counterexample: a 16-character username is not truncated to the
declared width 15 — the field keeps all 16 characters and overflows. -/
theorem fmtS_no_truncation :
    fmtS "abcdefghijklmnop" 15 = "abcdefghijklmnop" ∧
    (fmtS "abcdefghijklmnop" 15).length = 16 := by
  constructor <;> decide

/-- C5 amended: a string field of declared width `w` is padded to exactly
`w` when the content fits (length `max w s.length`), and content longer
than `w` is emitted whole (the output always extends `s`), never truncated. -/
theorem fmtS_length_spec (s : String) (w : Nat) :
    (fmtS s w).length = max w s.length ∧ ∃ pad, fmtS s w = s ++ pad := by
  constructor
  · show (s ++ String.mk (List.replicate (w - s.length) ' ')).length = max w s.length
    rw [String.length_append]
    have hmk : (String.mk (List.replicate (w - s.length) ' ')).length = w - s.length := by
      show (List.replicate (w - s.length) ' ').length = w - s.length
      simp
    rw [hmk]
    omega
  · exact ⟨String.mk (List.replicate (w - s.length) ' '), rfl⟩

/-- C6 counterexample: when the transactions query raises, the run ends
without reaching `conn.close()` on line 57 — the connection is not released
on that exit path. -/
theorem close_skipped_on_query_failure :
    (runView dbEmpty failTxOracle).2 = false := by
  rfl

/-- C6 amended: the connection is closed exactly on the runs in which all
five queries succeed; any query failure aborts the run before the close. -/
theorem close_iff_all_queries_ok (db : DB) (fails : QId → Bool) :
    (runView db fails).2 =
      (!fails QId.creds && !fails QId.accounts && !fails QId.atm &&
        !fails QId.tx && !fails QId.act) := by
  unfold runView
  cases h1 : fails QId.creds <;> cases h2 : fails QId.accounts <;>
    cases h3 : fails QId.atm <;> cases h4 : fails QId.tx <;>
    cases h5 : fails QId.act <;> simp [h1, h2, h3, h4, h5]

/-- C7 counterexample: the accounts section title emitted in the output is
not an all-caps line — it contains lowercase characters. -/
theorem accounts_title_not_all_caps :
    "ACCOUNTS TABLE - All Customer Account Information" ∈ viewOutput dbEmpty ∧
    ("ACCOUNTS TABLE - All Customer Account Information".data.any Char.isLower) = true := by
  constructor <;> decide

/-- C7 amended: the output is exactly the five sections in the fixed order
credentials, accounts, machine state, transactions, activities, each a blank
line, an 80-character rule, the title line and a second rule followed by the
body, and each of the five title lines occurs exactly once in the whole
output; the titles begin with an all-caps section name but four of them
carry mixed-case descriptive text. -/
theorem sections_structure_counts (db : DB) :
    viewOutput db =
      ["", eq80, "TECHNICIAN CREDENTIALS", eq80] ++ credBody db ++
      ["", eq80, "ACCOUNTS TABLE - All Customer Account Information", eq80] ++ accountsBody db ++
      ["", eq80, "ATM STATE - Machine Resources", eq80] ++ atmBody db ++
      ["", eq80, "TRANSACTIONS LOG - All Transactions (Last 20)", eq80] ++ txBody db ++
      ["", eq80, "TECHNICIAN ACTIVITIES LOG - All Technician Actions (Last 20)", eq80] ++ actBody db ∧
    eq80.length = 80 ∧
    (viewOutput db).count "TECHNICIAN CREDENTIALS" = 1 ∧
    (viewOutput db).count "ACCOUNTS TABLE - All Customer Account Information" = 1 ∧
    (viewOutput db).count "ATM STATE - Machine Resources" = 1 ∧
    (viewOutput db).count "TRANSACTIONS LOG - All Transactions (Last 20)" = 1 ∧
    (viewOutput db).count "TECHNICIAN ACTIVITIES LOG - All Technician Actions (Last 20)" = 1 := by
  refine ⟨?_, by decide, ?_, ?_, ?_, ?_, ?_⟩
  · simp [viewOutput, credSection, accountsSection, atmSection, txSection, actSection,
      header, List.append_assoc]
  · rw [count_viewOutput, count_credBody db _ (by decide) (by decide),
      count_accountsBody db _ (by decide), count_atmBody db _ (by decide),
      count_txBody db _ (by decide) (by decide), count_actBody db _ (by decide) (by decide)]
    decide
  · rw [count_viewOutput, count_credBody db _ (by decide) (by decide),
      count_accountsBody db _ (by decide), count_atmBody db _ (by decide),
      count_txBody db _ (by decide) (by decide), count_actBody db _ (by decide) (by decide)]
    decide
  · rw [count_viewOutput, count_credBody db _ (by decide) (by decide),
      count_accountsBody db _ (by decide), count_atmBody db _ (by decide),
      count_txBody db _ (by decide) (by decide), count_actBody db _ (by decide) (by decide)]
    decide
  · rw [count_viewOutput, count_credBody db _ (by decide) (by decide),
      count_accountsBody db _ (by decide), count_atmBody db _ (by decide),
      count_txBody db _ (by decide) (by decide), count_actBody db _ (by decide) (by decide)]
    decide
  · rw [count_viewOutput, count_credBody db _ (by decide) (by decide),
      count_accountsBody db _ (by decide), count_atmBody db _ (by decide),
      count_txBody db _ (by decide) (by decide), count_actBody db _ (by decide) (by decide)]
    decide

/-- C8: the run only reads — after the whole run the store is exactly what
it was before (every row of every table unchanged). -/
theorem run_preserves_db (db : DB) : (runStateful db).1 = db := by
  rw [runStateful_eq]

/-- C9: running the report a second time against the store left by the first
run prints byte-identical output. -/
theorem run_idempotent_output (db : DB) :
    (runStateful (runStateful db).1).2 = (runStateful db).2 := by
  simp [runStateful_eq]

/-- C10: the Never substitution is truthiness-based, not NULL-based — every
falsy lastLogin value renders Never, including the present-but-empty string
and the integer 0. -/
theorem falsy_last_login_renders_never :
    (∀ r : CredRow, pyTruthy r.last_login = false → lastLoginStr r = "Never") ∧
    pyTruthy (Val.text "") = false ∧ pyTruthy (Val.int 0) = false ∧
    Val.text "" ≠ Val.null := by
  refine ⟨?_, by decide, by decide, by decide⟩
  intro r h
  unfold lastLoginStr
  rw [h]
  rfl

/-- C10 witness: a credential row whose lastLogin is the empty string (and
therefore present, not NULL) renders Never. -/
theorem falsy_last_login_renders_never_witness :
    lastLoginStr credRowEmptyText = "Never" :=
  falsy_last_login_renders_never.1 credRowEmptyText (by decide)
